import Mathlib

/-!
Shallow embedding of the kgf-app-backend authentication subsystem.

The JavaScript sources embedded here:
  * src/utils/password.js        — hashPassword / verifyPassword (bcrypt wrappers)
  * src/middleware/auth.js       — signAccessToken / authenticateToken (jsonwebtoken wrappers)
  * src/middleware/validators.js — registerValidation password rule
  * src/controllers/authController.js — register / login / me handlers
  * the users relation of DB_SETUP.md (id serial, email unique, password_hash,
    name nullable, role default user, created_at)

External libraries (bcrypt, jsonwebtoken) are modelled as ideal functional
primitives: a bcrypt secret is its parsed content (cost, salt, digest), the
digest standing for the one-way digest of the plaintext, collision-free by
construction; a JWT is its decoded content plus the secret it was signed with,
standing for an unforgeable MAC. The repository code wrapped around them is
translated line by line.

Stateful behaviour (the PostgreSQL users table) is explicit state passing; the
register handler additionally receives two table states, one observed by its
existence pre-check and one by its INSERT, so that a concurrent registration
interleaved between the two (the check-then-insert race) is expressible.
Handlers also return the list of store/hash effects they performed.
-/

namespace KgfBackend

/-- Ideal functional model of a bcrypt output string: its cost factor, the
per-call salt, and the digest. The digest field stands for the bcrypt digest of
the plaintext; it is represented by the plaintext itself so that digests of
distinct plaintexts are distinct (ideal collision freeness). -/
structure BcryptSecret where
  cost : Nat
  salt : Nat
  digest : String
  deriving Repr, DecidableEq

/-- Model of bcrypt.hash with an explicit salt (bcrypt.genSalt's randomness is
an explicit parameter). -/
def bcryptHash (cost : Nat) (salt : Nat) (p : String) : BcryptSecret :=
  ⟨cost, salt, p⟩

/-- Model of bcrypt.compare: re-hash the candidate plaintext with the cost and
salt embedded in the stored secret and compare the results. -/
def bcryptCompare (p : String) (h : BcryptSecret) : Bool :=
  bcryptHash h.cost h.salt p == h

/-- Error thrown by hashPassword on invalid input
(src/utils/password.js line 8: throw new Error). -/
inductive PasswordError
  | invalidInput
  deriving Repr, DecidableEq

/-- src/utils/password.js hashPassword: reject an empty plaintext, then
genSalt + bcrypt.hash. The JavaScript dynamic check `typeof !== string` is
rendered by the Lean type of p; `length === 0` is the remaining guard. The
saltRounds argument is the SALT_ROUNDS configuration (default 12); salt is the
fresh randomness drawn by bcrypt.genSalt, passed explicitly. -/
def hashPassword (saltRounds : Nat) (salt : Nat) (p : String) :
    Except PasswordError BcryptSecret :=
  if p.length = 0 then .error .invalidInput
  else .ok (bcryptHash saltRounds salt p)

/-- src/utils/password.js verifyPassword: a missing/falsy stored hash fails
closed with false, otherwise bcrypt.compare. -/
def verifyPassword (p : String) (passwordHash : Option BcryptSecret) : Bool :=
  match passwordHash with
  | none => false
  | some h => bcryptCompare p h

/-- The token claim set signed by the handlers: { id, email, role }. -/
structure Claims where
  id : Nat
  email : String
  role : String
  deriving Repr, DecidableEq

/-- Ideal model of a signed JWT: the claims payload, the iat and exp fields
jwt.sign adds, and the secret it was signed with (sig stands for an
unforgeable signature: verification against a secret succeeds exactly when the
same secret produced it). -/
structure Jwt where
  payload : Claims
  iat : Nat
  exp : Nat
  sig : String
  deriving Repr, DecidableEq

/-- The decoded payload jwt.verify hands to its callback: claims plus
issued-at and expiry metadata. -/
structure DecodedClaims where
  claims : Claims
  iat : Nat
  exp : Nat
  deriving Repr, DecidableEq

/-- jsonwebtoken verification failures relevant here. -/
inductive JwtError
  | malformedToken
  | invalidSignature
  | tokenExpired
  deriving Repr, DecidableEq

/-- Model of jwt.sign(payload, secret, { expiresIn }): iat is the current
time, exp is iat plus the configured duration in seconds. -/
def jwtSign (secret : String) (now : Nat) (expiresIn : Nat) (c : Claims) : Jwt :=
  ⟨c, now, now + expiresIn, secret⟩

/-- Model of jwt.verify(token, secret): signature check, then expiry check
(expired when the clock has reached exp), then the decoded payload. -/
def jwtVerify (secret : String) (now : Nat) (t : Jwt) : Except JwtError DecodedClaims :=
  if t.sig ≠ secret then .error .invalidSignature
  else if t.exp ≤ now then .error .tokenExpired
  else .ok ⟨t.payload, t.iat, t.exp⟩

/-- Process-wide configuration of src/middleware/auth.js: JWT_SECRET and
JWT_EXPIRES_IN (none when the environment variable is unset). -/
structure AuthConfig where
  jwtSecret : String
  jwtExpiresIn : Option Nat
  deriving Repr, DecidableEq

/-- The default token lifetime: JWT_EXPIRES_IN falls back to 1h. -/
def defaultExpiresIn : Nat := 3600

/-- src/middleware/auth.js signAccessToken: jwt.sign with the configured
expiry, defaulting to one hour. -/
def signAccessToken (cfg : AuthConfig) (now : Nat) (payload : Claims) : Jwt :=
  jwtSign cfg.jwtSecret now (cfg.jwtExpiresIn.getD defaultExpiresIn) payload

/-- JavaScript String.prototype.toLowerCase as the handlers apply it to
email strings: lower-case every character. Defined structurally over the
character list so that it evaluates inside the kernel. -/
def toLowerCase (s : String) : String :=
  ⟨s.data.map Char.toLower⟩

/-- One row of the users relation (DB_SETUP.md): id, email (stored
lower-cased, unique), password_hash (not null), name (nullable), role
(default user), created_at. updated_at is omitted: no embedded operation
reads or returns it. -/
structure UserRow where
  id : Nat
  email : String
  password_hash : BcryptSecret
  name : Option String
  role : String
  created_at : Nat
  deriving Repr, DecidableEq

/-- The users relation: its rows and the sequence behind the serial id. -/
structure UsersTable where
  rows : List UserRow
  nextId : Nat
  deriving Repr, DecidableEq

/-- SELECT ... FROM users WHERE email = e. -/
def queryByEmail (s : UsersTable) (e : String) : List UserRow :=
  s.rows.filter (fun u => u.email == e)

/-- SELECT ... FROM users WHERE id = i. -/
def queryById (s : UsersTable) (i : Nat) : List UserRow :=
  s.rows.filter (fun u => u.id == i)

/-- existing.rows.length > 0, as a Bool. -/
def emailTaken (s : UsersTable) (e : String) : Bool :=
  !(queryByEmail s e).isEmpty

/-- Store-level failure of an INSERT: the unique constraint on users.email. -/
inductive DbError
  | uniqueViolation
  deriving Repr, DecidableEq

/-- INSERT INTO users (email, password_hash, name) VALUES ... RETURNING ...:
the unique constraint on email rejects a duplicate; otherwise the row is
appended with the next serial id, role defaulted to user and created_at set
by the server clock. -/
def insertUserRow (s : UsersTable) (e : String) (h : BcryptSecret)
    (n : Option String) (now : Nat) : Except DbError (UserRow × UsersTable) :=
  if emailTaken s e then .error .uniqueViolation
  else
    let row : UserRow := ⟨s.nextId, e, h, n, "user", now⟩
    .ok (row, ⟨s.rows ++ [row], s.nextId + 1⟩)

/-- A JSON field value appearing in a returned user object. -/
inductive FieldValue
  | vNat (n : Nat)
  | vStr (s : String)
  | vNull
  | vSecret (h : BcryptSecret)
  deriving Repr, DecidableEq

/-- A JavaScript object holding a user row: an ordered list of
(key, value) pairs, as built from a query's column list. -/
abbrev UserObject := List (String × FieldValue)

/-- A nullable text column rendered as a JSON field value. -/
def optField (n : Option String) : FieldValue :=
  match n with
  | some s => .vStr s
  | none => .vNull

/-- The object produced by the column list id, email, name, role, created_at
(the RETURNING clause of register's INSERT, and the SELECT of the me
handler). -/
def publicRowObject (u : UserRow) : UserObject :=
  [("id", .vNat u.id), ("email", .vStr u.email), ("name", optField u.name),
   ("role", .vStr u.role), ("created_at", .vNat u.created_at)]

/-- The object produced by login's SELECT column list
id, email, password_hash, name, role. -/
def loginSelectRow (u : UserRow) : UserObject :=
  [("id", .vNat u.id), ("email", .vStr u.email),
   ("password_hash", .vSecret u.password_hash),
   ("name", optField u.name), ("role", .vStr u.role)]

/-- JavaScript delete user.key: remove a key from the object. -/
def deleteField (o : UserObject) (k : String) : UserObject :=
  o.filter (fun kv => !(kv.1 == k))

/-- Whether the object has a field with the given key. -/
def objHasKey (o : UserObject) (k : String) : Bool :=
  o.any (fun kv => kv.1 == k)

/-- The JSON bodies the auth endpoints produce: an { error } object, a
{ user, token } object, or a { user } object. -/
inductive ResponseBody
  | errMsg (msg : String)
  | userToken (user : UserObject) (token : Jwt)
  | userOnly (user : UserObject)
  deriving Repr, DecidableEq

/-- An HTTP response: status code and JSON body. -/
structure Response where
  status : Nat
  body : ResponseBody
  deriving Repr, DecidableEq

/-- True when the response body's user object carries a password_hash
field. -/
def responseLeaksHash (r : Response) : Bool :=
  match r.body with
  | .errMsg _ => false
  | .userToken u _ => objHasKey u "password_hash"
  | .userOnly u => objHasKey u "password_hash"

/-- Helper of splitOnSpace: the segment characters accumulated so far (in
reverse) and the remaining input. -/
def splitOnSpaceAux (cs : List Char) (acc : List Char) : List String :=
  match cs with
  | [] => [String.mk acc.reverse]
  | c :: rest =>
    if c = ' ' then String.mk acc.reverse :: splitOnSpaceAux rest []
    else splitOnSpaceAux rest (c :: acc)

/-- JavaScript header.split(the space character): cut at every single space,
keeping empty segments (an empty input yields one empty segment). Defined
structurally over the character list so that it evaluates inside the
kernel. -/
def splitOnSpace (s : String) : List String :=
  splitOnSpaceAux s.data []

/-- src/middleware/auth.js lines 7-9: take the Authorization header (absent
headers are none), split it on single spaces, demand segment 0 be exactly
Bearer, and take segment 1 as the token; the `!token` guard then rejects a
missing or empty token. Segments beyond index 1 are never inspected. -/
def tokenFromHeader (authHeader : Option String) : Option String :=
  match authHeader with
  | none => none
  | some h =>
    match (if (splitOnSpace h)[0]? = some "Bearer"
           then (splitOnSpace h)[1]? else none) with
    | none => none
    | some t => if t = "" then none else some t

/-- Outcome of the auth gate middleware: respond immediately, or call next()
with req.user set to the decoded claims. -/
inductive GateOutcome
  | respond (r : Response)
  | next (user : DecodedClaims)
  deriving Repr, DecidableEq

/-- Token verification as the middleware sees it: the wire token string is
decoded by the jsonwebtoken parser (dec; undecodable strings are malformed)
and then checked for signature and expiry. -/
def verifyTokenString (dec : String → Option Jwt) (secret : String) (now : Nat)
    (t : String) : Except JwtError DecodedClaims :=
  match dec t with
  | none => .error .malformedToken
  | some j => jwtVerify secret now j

/-- src/middleware/auth.js authenticateToken: extract the bearer token from
the Authorization header (401 Unauthorized when absent/empty), verify it
(401 Invalid token on any verification error), else attach the decoded user
and continue. -/
def authenticateToken (dec : String → Option Jwt) (cfg : AuthConfig) (now : Nat)
    (authHeader : Option String) : GateOutcome :=
  match tokenFromHeader authHeader with
  | none => .respond ⟨401, .errMsg "Unauthorized"⟩
  | some t =>
    match verifyTokenString dec cfg.jwtSecret now t with
    | .error _ => .respond ⟨401, .errMsg "Invalid token"⟩
    | .ok user => .next user

/-- Store and hasher effects a handler performs, in order. -/
inductive Effect
  | selectByEmail (e : String)
  | hashCompute (p : String)
  | insertRow (e : String)
  | selectById (i : Nat)
  deriving Repr, DecidableEq

/-- Body of POST /api/auth/register after JSON parsing. -/
structure RegisterRequest where
  email : String
  password : String
  name : Option String
  deriving Repr, DecidableEq

/-- Body of POST /api/auth/login after JSON parsing. -/
structure LoginRequest where
  email : String
  password : String
  deriving Repr, DecidableEq

/-- JavaScript name || null: an absent or empty-string name becomes null. -/
def nameOrNull (n : Option String) : Option String :=
  match n with
  | some s => if s = "" then none else some s
  | none => none

/-- src/middleware/validators.js registerValidation, password rule:
body(password).isLength({ min: 8 }). -/
def registerPasswordRule (p : String) : Bool :=
  decide (8 ≤ p.length)

/-- src/controllers/authController.js register. The existence pre-check runs
against sCheck; the INSERT runs against sInsert (a concurrent registration
may have changed the table in between — with no interference sCheck =
sInsert). Any thrown error (invalid password input, unique-constraint
violation at INSERT) reaches the single catch block, which answers
500 Failed to register user. Returns the response, the resulting table and
the effect trace. -/
def register (cfg : AuthConfig) (saltRounds salt now : Nat)
    (sCheck sInsert : UsersTable) (req : RegisterRequest) :
    Response × UsersTable × List Effect :=
  if emailTaken sCheck (toLowerCase req.email) then
    (⟨409, .errMsg "Email already in use"⟩, sInsert,
     [.selectByEmail (toLowerCase req.email)])
  else
    match hashPassword saltRounds salt req.password with
    | .error _ =>
      (⟨500, .errMsg "Failed to register user"⟩, sInsert,
       [.selectByEmail (toLowerCase req.email), .hashCompute req.password])
    | .ok h =>
      match insertUserRow sInsert (toLowerCase req.email) h (nameOrNull req.name) now with
      | .error _ =>
        (⟨500, .errMsg "Failed to register user"⟩, sInsert,
         [.selectByEmail (toLowerCase req.email), .hashCompute req.password,
          .insertRow (toLowerCase req.email)])
      | .ok (row, s2) =>
        (⟨201, .userToken (publicRowObject row)
            (signAccessToken cfg now ⟨row.id, row.email, row.role⟩)⟩, s2,
         [.selectByEmail (toLowerCase req.email), .hashCompute req.password,
          .insertRow (toLowerCase req.email)])

/-- src/controllers/authController.js login: select by the lower-cased email,
answer 401 Invalid credentials when no row comes back or the password fails
verification, else delete password_hash from the row object, sign a token and
answer 200 { user, token }. Returns the response and the effect trace. -/
def login (cfg : AuthConfig) (now : Nat) (s : UsersTable) (req : LoginRequest) :
    Response × List Effect :=
  match (queryByEmail s (toLowerCase req.email))[0]? with
  | none => (⟨401, .errMsg "Invalid credentials"⟩,
             [.selectByEmail (toLowerCase req.email)])
  | some u =>
    if !(verifyPassword req.password (some u.password_hash)) then
      (⟨401, .errMsg "Invalid credentials"⟩, [.selectByEmail (toLowerCase req.email)])
    else
      (⟨200, .userToken (deleteField (loginSelectRow u) "password_hash")
          (signAccessToken cfg now ⟨u.id, u.email, u.role⟩)⟩,
       [.selectByEmail (toLowerCase req.email)])

/-- src/controllers/authController.js me: select by the id taken from
req.user (the verified claims); 404 User not found when the row is gone,
else 200 { user }. -/
def me (s : UsersTable) (userId : Nat) : Response :=
  match (queryById s userId)[0]? with
  | none => ⟨404, .errMsg "User not found"⟩
  | some u => ⟨200, .userOnly (publicRowObject u)⟩

/-- GET /api/auth/me as routed in src/routes/auth.js: the auth gate runs
first; only when it calls next() does the me handler run, on the id field of
the attached claims. -/
def meRoute (dec : String → Option Jwt) (cfg : AuthConfig) (now : Nat)
    (s : UsersTable) (authHeader : Option String) : Response :=
  match authenticateToken dec cfg now authHeader with
  | .respond r => r
  | .next user => me s user.claims.id

/-! Helper lemmas shared by several claims. -/

theorem length_ne_zero_of_ne_empty (s : String) (h : s ≠ "") : s.length ≠ 0 := by
  intro hl
  apply h
  cases s with
  | mk data =>
    simp [String.length] at hl
    simp [hl]

/-! Claim theorems. -/

/-- C4: every response of the three auth handlers — in particular the 201
from register, the 200 from login and the 200 from me — carries a user
object without a password_hash field: register's RETURNING list and me's SELECT
never include the secret column, and login deletes it before responding. -/
theorem auth_responses_never_contain_password_hash :
    (∀ (cfg : AuthConfig) (saltRounds salt now : Nat)
        (sCheck sInsert : UsersTable) (req : RegisterRequest),
      responseLeaksHash (register cfg saltRounds salt now sCheck sInsert req).1 = false) ∧
    (∀ (cfg : AuthConfig) (now : Nat) (s : UsersTable) (req : LoginRequest),
      responseLeaksHash (login cfg now s req).1 = false) ∧
    (∀ (s : UsersTable) (i : Nat), responseLeaksHash (me s i) = false) := by
  refine ⟨?_, ?_, ?_⟩
  · intro cfg saltRounds salt now sCheck sInsert req
    simp only [register]
    split
    · rfl
    · split
      · rfl
      · split
        · rfl
        · rfl
  · intro cfg now s req
    simp only [login]
    split
    · rfl
    · split
      · rfl
      · rfl
  · intro s i
    simp only [me]
    split
    · rfl
    · rfl

/-- C8: when the users table already holds a row for the normalized email,
register answers 409 Email already in use and performs no mutation: the
resulting table is the input table, the effect trace is the existence check
alone (no hash computation, no insert), and a table holding exactly one row
for that email still holds exactly one afterwards. -/
theorem register_duplicate_precheck_409_no_mutation
    (cfg : AuthConfig) (saltRounds salt now : Nat) (s : UsersTable)
    (req : RegisterRequest)
    (hdup : emailTaken s (toLowerCase req.email) = true) :
    register cfg saltRounds salt now s s req =
      (⟨409, .errMsg "Email already in use"⟩, s,
       [.selectByEmail (toLowerCase req.email)]) ∧
    (∀ p, Effect.hashCompute p ∉ (register cfg saltRounds salt now s s req).2.2) ∧
    (∀ e, Effect.insertRow e ∉ (register cfg saltRounds salt now s s req).2.2) ∧
    ((queryByEmail s (toLowerCase req.email)).length = 1 →
      (queryByEmail (register cfg saltRounds salt now s s req).2.1
        (toLowerCase req.email)).length = 1) := by
  have h : register cfg saltRounds salt now s s req =
      (⟨409, .errMsg "Email already in use"⟩, s,
       [.selectByEmail (toLowerCase req.email)]) := by
    simp [register, hdup]
  refine ⟨h, ?_, ?_, ?_⟩
  · intro p
    rw [h]
    simp
  · intro e
    rw [h]
    simp
  · intro hone
    rw [h]
    exact hone

/-- C8 witness: a concrete table already holding dup@x.com; registering
Dup@X.com answers 409 and leaves the table untouched. -/
theorem register_duplicate_precheck_409_no_mutation_witness :
    register ⟨"k", none⟩ 12 1 2
      ⟨[⟨1, "dup@x.com", ⟨12, 0, "abcdefgh"⟩, none, "user", 0⟩], 2⟩
      ⟨[⟨1, "dup@x.com", ⟨12, 0, "abcdefgh"⟩, none, "user", 0⟩], 2⟩
      ⟨"Dup@X.com", "newpass123", none⟩ =
      (⟨409, .errMsg "Email already in use"⟩,
       ⟨[⟨1, "dup@x.com", ⟨12, 0, "abcdefgh"⟩, none, "user", 0⟩], 2⟩,
       [.selectByEmail "dup@x.com"]) :=
  (register_duplicate_precheck_409_no_mutation ⟨"k", none⟩ 12 1 2
    ⟨[⟨1, "dup@x.com", ⟨12, 0, "abcdefgh"⟩, none, "user", 0⟩], 2⟩
    ⟨"Dup@X.com", "newpass123", none⟩ (by decide)).1

/-- C3: the two authentication-failure runs of login are indistinguishable:
a run whose email lookup returns no row and a run whose row's password fails
verification produce equal responses, both 401 Invalid credentials. -/
theorem login_failure_responses_identical
    (cfg : AuthConfig) (now : Nat) (s1 s2 : UsersTable)
    (r1 r2 : LoginRequest) (u : UserRow)
    (h1 : (queryByEmail s1 (toLowerCase r1.email))[0]? = none)
    (h2 : (queryByEmail s2 (toLowerCase r2.email))[0]? = some u)
    (h3 : verifyPassword r2.password (some u.password_hash) = false) :
    (login cfg now s1 r1).1 = (login cfg now s2 r2).1 ∧
    (login cfg now s1 r1).1 = ⟨401, .errMsg "Invalid credentials"⟩ := by
  constructor
  · simp [login, h1, h2, h3]
  · simp [login, h1]

/-- C3 witness: an unregistered email and a wrong password against a
registered row yield the same concrete 401 response. -/
theorem login_failure_responses_identical_witness :
    (login ⟨"k", none⟩ 0 ⟨[], 1⟩ ⟨"ghost@x.com", "whatever1"⟩).1 =
      (login ⟨"k", none⟩ 0
        ⟨[⟨1, "a@b", ⟨12, 0, "rightpw1"⟩, none, "user", 0⟩], 2⟩
        ⟨"a@b", "wrongpass"⟩).1 ∧
    (login ⟨"k", none⟩ 0 ⟨[], 1⟩ ⟨"ghost@x.com", "whatever1"⟩).1 =
      ⟨401, .errMsg "Invalid credentials"⟩ :=
  login_failure_responses_identical ⟨"k", none⟩ 0 ⟨[], 1⟩
    ⟨[⟨1, "a@b", ⟨12, 0, "rightpw1"⟩, none, "user", 0⟩], 2⟩
    ⟨"ghost@x.com", "whatever1"⟩ ⟨"a@b", "wrongpass"⟩
    ⟨1, "a@b", ⟨12, 0, "rightpw1"⟩, none, "user", 0⟩
    (by decide) (by decide) (by decide)

/-- C6: hashing a non-empty plaintext succeeds and the result verifies
against it; a different plaintext fails verification; two hashes of the same
plaintext under distinct fresh salts are distinct secrets, and both verify
against the plaintext. -/
theorem bcrypt_hash_verify_roundtrip
    (saltRounds s1 s2 : Nat) (p q : String)
    (hp : p ≠ "") (hq : q ≠ p) (hs : s1 ≠ s2) :
    hashPassword saltRounds s1 p = .ok (bcryptHash saltRounds s1 p) ∧
    verifyPassword p (some (bcryptHash saltRounds s1 p)) = true ∧
    verifyPassword q (some (bcryptHash saltRounds s1 p)) = false ∧
    bcryptHash saltRounds s1 p ≠ bcryptHash saltRounds s2 p ∧
    verifyPassword p (some (bcryptHash saltRounds s2 p)) = true := by
  refine ⟨?_, ?_, ?_, ?_, ?_⟩
  · simp [hashPassword, length_ne_zero_of_ne_empty p hp]
  · simp [verifyPassword, bcryptCompare, bcryptHash]
  · simp [verifyPassword, bcryptCompare, bcryptHash, hq]
  · simp [bcryptHash, hs]
  · simp [verifyPassword, bcryptCompare, bcryptHash]

/-- C6 witness: concrete plaintexts and salts. -/
theorem bcrypt_hash_verify_roundtrip_witness :
    hashPassword 12 0 "password" = .ok (bcryptHash 12 0 "password") ∧
    verifyPassword "password" (some (bcryptHash 12 0 "password")) = true ∧
    verifyPassword "other" (some (bcryptHash 12 0 "password")) = false ∧
    bcryptHash 12 0 "password" ≠ bcryptHash 12 1 "password" ∧
    verifyPassword "password" (some (bcryptHash 12 1 "password")) = true :=
  bcrypt_hash_verify_roundtrip 12 0 1 "password" "other"
    (by decide) (by decide) (by decide)

/-- C7: verifying a token issued by signAccessToken before its expiry
succeeds and decodes to exactly the signed claims plus iat = issue time and
exp = issue time plus the configured duration; with no configured duration
the expiry is the one-hour default. -/
theorem token_sign_verify_roundtrip
    (cfg : AuthConfig) (c : Claims) (t0 now : Nat)
    (h : now < t0 + cfg.jwtExpiresIn.getD defaultExpiresIn) :
    jwtVerify cfg.jwtSecret now (signAccessToken cfg t0 c) =
      .ok ⟨c, t0, t0 + cfg.jwtExpiresIn.getD defaultExpiresIn⟩ ∧
    (cfg.jwtExpiresIn = none → (signAccessToken cfg t0 c).exp = t0 + 3600) := by
  constructor
  · simp only [signAccessToken, jwtSign, jwtVerify]
    rw [if_neg (by intro hne; exact hne rfl), if_neg (by omega)]
  · intro hnone
    simp [signAccessToken, jwtSign, hnone, defaultExpiresIn]

/-- C7 witness: a token signed at time 0 with the default one-hour expiry is
verified at time 10 and decodes to the signed claims with exp = 3600. -/
theorem token_sign_verify_roundtrip_witness :
    jwtVerify "k" 10 (signAccessToken ⟨"k", none⟩ 0 ⟨1, "a@b", "user"⟩) =
      .ok ⟨⟨1, "a@b", "user"⟩, 0, 0 + (Option.getD none defaultExpiresIn)⟩ ∧
    ((⟨"k", none⟩ : AuthConfig).jwtExpiresIn = none →
      (signAccessToken ⟨"k", none⟩ 0 ⟨1, "a@b", "user"⟩).exp = 0 + 3600) :=
  token_sign_verify_roundtrip ⟨"k", none⟩ ⟨1, "a@b", "user"⟩ 0 10 (by decide)

/-- C1 counterexample: a register request whose email passes the pre-check
(the table seen by the check is empty) but whose INSERT is rejected by the
uniqueness constraint (a concurrent registration of a@b.com landed in
between) is answered with the generic 500 Failed to register user — not with
the 409 Email already in use outcome the claim asserts. -/
theorem register_race_counterexample :
    (register ⟨"dev-secret-change", none⟩ 12 0 5 ⟨[], 1⟩
      ⟨[⟨1, "a@b.com", ⟨12, 3, "password1"⟩, none, "user", 4⟩], 2⟩
      ⟨"A@B.com", "password1", none⟩).1 =
      ⟨500, .errMsg "Failed to register user"⟩ ∧
    (register ⟨"dev-secret-change", none⟩ 12 0 5 ⟨[], 1⟩
      ⟨[⟨1, "a@b.com", ⟨12, 3, "password1"⟩, none, "user", 4⟩], 2⟩
      ⟨"A@B.com", "password1", none⟩).1.status ≠ 409 := by
  decide

/-- C1 amended: when the pre-check passes but the INSERT hits the store's
uniqueness constraint (check-then-insert race), the register handler's
catch-all maps the duplicate-key failure to HTTP 500 with the generic body
Failed to register user, leaving the table unchanged; it is not mapped to
the 409 Email already in use outcome of the pre-check. -/
theorem register_insert_conflict_maps_to_500
    (cfg : AuthConfig) (saltRounds salt now : Nat)
    (sCheck sInsert : UsersTable) (req : RegisterRequest)
    (hpre : emailTaken sCheck (toLowerCase req.email) = false)
    (hp : req.password ≠ "")
    (hconf : emailTaken sInsert (toLowerCase req.email) = true) :
    register cfg saltRounds salt now sCheck sInsert req =
      (⟨500, .errMsg "Failed to register user"⟩, sInsert,
       [.selectByEmail (toLowerCase req.email), .hashCompute req.password,
        .insertRow (toLowerCase req.email)]) := by
  simp [register, hpre, hashPassword, length_ne_zero_of_ne_empty _ hp,
    insertUserRow, hconf]

/-- C1 amended witness: the concrete race run of the counterexample, through
the amended theorem. -/
theorem register_insert_conflict_maps_to_500_witness :
    register ⟨"k2", some 60⟩ 10 9 8 ⟨[], 1⟩
      ⟨[⟨7, "raced@y.org", ⟨10, 2, "pw2pw2pw2"⟩, none, "user", 8⟩], 8⟩
      ⟨"Raced@Y.org", "pw1pw1pw1", some "R"⟩ =
      (⟨500, .errMsg "Failed to register user"⟩,
       ⟨[⟨7, "raced@y.org", ⟨10, 2, "pw2pw2pw2"⟩, none, "user", 8⟩], 8⟩,
       [.selectByEmail "raced@y.org", .hashCompute "pw1pw1pw1",
        .insertRow "raced@y.org"]) :=
  register_insert_conflict_maps_to_500 ⟨"k2", some 60⟩ 10 9 8 ⟨[], 1⟩
    ⟨[⟨7, "raced@y.org", ⟨10, 2, "pw2pw2pw2"⟩, none, "user", 8⟩], 8⟩
    ⟨"Raced@Y.org", "pw1pw1pw1", some "R"⟩ (by decide) (by decide) (by decide)

/-- C2 counterexample: an Authorization header with extra segments beyond the
single token — Bearer tok extra — is not rejected by the auth gate: the gate
takes segment 1 (tok) as the token, verification succeeds, and the downstream
me handler runs and answers 200. -/
theorem authGate_extra_segments_counterexample :
    authenticateToken
      (fun s => if s = "tok" then
        some ⟨⟨1, "a@b", "user"⟩, 0, 3600, "dev-secret-change"⟩ else none)
      ⟨"dev-secret-change", none⟩ 0 (some "Bearer tok extra") =
      .next ⟨⟨1, "a@b", "user"⟩, 0, 3600⟩ ∧
    meRoute
      (fun s => if s = "tok" then
        some ⟨⟨1, "a@b", "user"⟩, 0, 3600, "dev-secret-change"⟩ else none)
      ⟨"dev-secret-change", none⟩ 0
      ⟨[⟨1, "a@b", ⟨12, 0, "pw123456"⟩, none, "user", 0⟩], 2⟩
      (some "Bearer tok extra") =
      ⟨200, .userOnly [("id", .vNat 1), ("email", .vStr "a@b"), ("name", .vNull),
        ("role", .vStr "user"), ("created_at", .vNat 0)]⟩ := by
  constructor
  · rfl
  · rfl

/-- C2 amended: the auth gate answers 401 and the downstream handler never
runs when the Authorization header is absent, when its first space-separated
segment is not exactly Bearer, when it is a bare Bearer with no token
segment, and when the token segment is empty; segments beyond the token are
however ignored, not rejected — the gate verifies segment 1 alone. -/
theorem authGate_rejects_malformed_header
    (dec : String → Option Jwt) (cfg : AuthConfig) (now : Nat) :
    (authenticateToken dec cfg now none =
      .respond ⟨401, .errMsg "Unauthorized"⟩) ∧
    (∀ h : String, (splitOnSpace h)[0]? ≠ some "Bearer" →
      authenticateToken dec cfg now (some h) =
        .respond ⟨401, .errMsg "Unauthorized"⟩) ∧
    (authenticateToken dec cfg now (some "Bearer") =
      .respond ⟨401, .errMsg "Unauthorized"⟩) ∧
    (∀ h : String, (splitOnSpace h)[1]? = some "" →
      authenticateToken dec cfg now (some h) =
        .respond ⟨401, .errMsg "Unauthorized"⟩) ∧
    (∀ (s : UsersTable) (hdr : Option String) (r : Response),
      authenticateToken dec cfg now hdr = .respond r →
      meRoute dec cfg now s hdr = r) := by
  refine ⟨rfl, ?_, rfl, ?_, ?_⟩
  · intro h hne
    simp only [authenticateToken, tokenFromHeader]
    rw [if_neg hne]
  · intro h h1
    simp only [authenticateToken, tokenFromHeader]
    by_cases hc : (splitOnSpace h)[0]? = some "Bearer"
    · rw [if_pos hc, h1]
      rfl
    · rw [if_neg hc]
  · intro s hdr r hresp
    simp [meRoute, hresp]

/-- C2 amended witness: the rejected header shapes at concrete inputs, and a
concrete respond outcome propagating through the route. -/
theorem authGate_rejects_malformed_header_witness :
    (authenticateToken (fun _ => none) ⟨"k", none⟩ 0 none =
      .respond ⟨401, .errMsg "Unauthorized"⟩) ∧
    (authenticateToken (fun _ => none) ⟨"k", none⟩ 0 (some "Token abc") =
      .respond ⟨401, .errMsg "Unauthorized"⟩) ∧
    (authenticateToken (fun _ => none) ⟨"k", none⟩ 0 (some "Bearer") =
      .respond ⟨401, .errMsg "Unauthorized"⟩) ∧
    (authenticateToken (fun _ => none) ⟨"k", none⟩ 0 (some "Bearer ") =
      .respond ⟨401, .errMsg "Unauthorized"⟩) ∧
    meRoute (fun _ => none) ⟨"k", none⟩ 0 ⟨[], 1⟩ none =
      ⟨401, .errMsg "Unauthorized"⟩ := by
  have h := authGate_rejects_malformed_header (fun _ => none) ⟨"k", none⟩ 0
  exact ⟨h.1, h.2.1 "Token abc" (by decide), h.2.2.1,
    h.2.2.2.1 "Bearer " (by decide), h.2.2.2.2 ⟨[], 1⟩ none _ h.1⟩

/-- C5: register and login touch the user store only with the lower-cased
email — the effect traces of a registration and of a subsequent login carry
exactly the existence check, hash and insert on toLowerCase e1 and the
lookup on toLowerCase e2 — and registering with one casing then logging in
with any other casing of the same email and the correct password answers
201 then 200. -/
theorem register_login_email_case_insensitive
    (cfg : AuthConfig) (saltRounds salt now now2 : Nat) (s : UsersTable)
    (e1 e2 p : String) (nm : Option String)
    (hfresh : queryByEmail s (toLowerCase e1) = [])
    (hp : p ≠ "")
    (hcase : toLowerCase e1 = toLowerCase e2) :
    (register cfg saltRounds salt now s s ⟨e1, p, nm⟩).2.2 =
      [.selectByEmail (toLowerCase e1), .hashCompute p,
       .insertRow (toLowerCase e1)] ∧
    (register cfg saltRounds salt now s s ⟨e1, p, nm⟩).1.status = 201 ∧
    (login cfg now2 (register cfg saltRounds salt now s s ⟨e1, p, nm⟩).2.1
       ⟨e2, p⟩).2 = [.selectByEmail (toLowerCase e2)] ∧
    (login cfg now2 (register cfg saltRounds salt now s s ⟨e1, p, nm⟩).2.1
       ⟨e2, p⟩).1.status = 200 := by
  have hnot : emailTaken s (toLowerCase e1) = false := by
    simp [emailTaken, hfresh]
  have hlen := length_ne_zero_of_ne_empty p hp
  have hfresh' : s.rows.filter (fun u => u.email == toLowerCase e1) = [] :=
    hfresh
  refine ⟨?_, ?_, ?_, ?_⟩
  · simp [register, hnot, hashPassword, hlen, insertUserRow]
  · simp [register, hnot, hashPassword, hlen, insertUserRow]
  · simp [register, hnot, hashPassword, hlen, insertUserRow, login,
      queryByEmail, List.filter_append, ← hcase, hfresh', verifyPassword,
      bcryptCompare, bcryptHash]
  · simp [register, hnot, hashPassword, hlen, insertUserRow, login,
      queryByEmail, List.filter_append, ← hcase, hfresh', verifyPassword,
      bcryptCompare, bcryptHash]

/-- C5 witness: registering User@Example.com then logging in as
user@example.COM with the same password. -/
theorem register_login_email_case_insensitive_witness :
    (register ⟨"w5", none⟩ 12 4 1 ⟨[], 1⟩ ⟨[], 1⟩
       ⟨"User@Example.com", "hunter2abc", none⟩).2.2 =
      [.selectByEmail "user@example.com", .hashCompute "hunter2abc",
       .insertRow "user@example.com"] ∧
    (register ⟨"w5", none⟩ 12 4 1 ⟨[], 1⟩ ⟨[], 1⟩
       ⟨"User@Example.com", "hunter2abc", none⟩).1.status = 201 ∧
    (login ⟨"w5", none⟩ 2
       (register ⟨"w5", none⟩ 12 4 1 ⟨[], 1⟩ ⟨[], 1⟩
         ⟨"User@Example.com", "hunter2abc", none⟩).2.1
       ⟨"user@example.COM", "hunter2abc"⟩).2 =
      [.selectByEmail "user@example.com"] ∧
    (login ⟨"w5", none⟩ 2
       (register ⟨"w5", none⟩ 12 4 1 ⟨[], 1⟩ ⟨[], 1⟩
         ⟨"User@Example.com", "hunter2abc", none⟩).2.1
       ⟨"user@example.COM", "hunter2abc"⟩).1.status = 200 :=
  register_login_email_case_insensitive ⟨"w5", none⟩ 12 4 1 2 ⟨[], 1⟩
    "User@Example.com" "user@example.COM" "hunter2abc" none
    (by decide) (by decide) (by decide)

/-- C9: a me request that passes the auth gate runs the me handler on the id
field of the verified claims; when no row with that id remains the answer is
404 User not found, otherwise 200 with a user object of exactly id, email,
name, role and created_at. -/
theorem me_lookup_by_verified_id
    (dec : String → Option Jwt) (cfg : AuthConfig) (now : Nat)
    (s : UsersTable) (hdr : Option String) (u : DecodedClaims) :
    (authenticateToken dec cfg now hdr = .next u →
      meRoute dec cfg now s hdr = me s u.claims.id) ∧
    ((queryById s u.claims.id)[0]? = none →
      me s u.claims.id = ⟨404, .errMsg "User not found"⟩) ∧
    (∀ row, (queryById s u.claims.id)[0]? = some row →
      me s u.claims.id = ⟨200, .userOnly
        [("id", .vNat row.id), ("email", .vStr row.email),
         ("name", optField row.name), ("role", .vStr row.role),
         ("created_at", .vNat row.created_at)]⟩) := by
  refine ⟨?_, ?_, ?_⟩
  · intro h
    simp [meRoute, h]
  · intro h
    simp [me, h]
  · intro row h
    simp [me, h, publicRowObject]

/-- C9 witness: a gate-passing request whose claims carry id 3, answered
from a table holding the row (200 with the five public fields) and from a
table without it (404). -/
theorem me_lookup_by_verified_id_witness :
    meRoute (fun t => if t = "T9" then
        some ⟨⟨3, "c@d", "user"⟩, 0, 3600, "w9"⟩ else none)
      ⟨"w9", none⟩ 5
      ⟨[⟨3, "c@d", ⟨12, 0, "abcdefgh"⟩, some "C", "user", 7⟩], 4⟩
      (some "Bearer T9") =
      me ⟨[⟨3, "c@d", ⟨12, 0, "abcdefgh"⟩, some "C", "user", 7⟩], 4⟩ 3 ∧
    me (⟨[], 1⟩ : UsersTable) 3 = ⟨404, .errMsg "User not found"⟩ ∧
    me ⟨[⟨3, "c@d", ⟨12, 0, "abcdefgh"⟩, some "C", "user", 7⟩], 4⟩ 3 =
      ⟨200, .userOnly
        [("id", .vNat 3), ("email", .vStr "c@d"), ("name", .vStr "C"),
         ("role", .vStr "user"), ("created_at", .vNat 7)]⟩ :=
  ⟨(me_lookup_by_verified_id
      (fun t => if t = "T9" then
        some ⟨⟨3, "c@d", "user"⟩, 0, 3600, "w9"⟩ else none)
      ⟨"w9", none⟩ 5
      ⟨[⟨3, "c@d", ⟨12, 0, "abcdefgh"⟩, some "C", "user", 7⟩], 4⟩
      (some "Bearer T9") ⟨⟨3, "c@d", "user"⟩, 0, 3600⟩).1 (by decide),
   (me_lookup_by_verified_id
      (fun t => if t = "T9" then
        some ⟨⟨3, "c@d", "user"⟩, 0, 3600, "w9"⟩ else none)
      ⟨"w9", none⟩ 5 ⟨[], 1⟩ (some "Bearer T9")
      ⟨⟨3, "c@d", "user"⟩, 0, 3600⟩).2.1 (by decide),
   (me_lookup_by_verified_id
      (fun t => if t = "T9" then
        some ⟨⟨3, "c@d", "user"⟩, 0, 3600, "w9"⟩ else none)
      ⟨"w9", none⟩ 5
      ⟨[⟨3, "c@d", ⟨12, 0, "abcdefgh"⟩, some "C", "user", 7⟩], 4⟩
      (some "Bearer T9") ⟨⟨3, "c@d", "user"⟩, 0, 3600⟩).2.2
      ⟨3, "c@d", ⟨12, 0, "abcdefgh"⟩, some "C", "user", 7⟩ (by decide)⟩

/-- C10: a password that passed registerValidation's length rule (at least 8
characters) satisfies hashPassword's non-empty precondition, so its
InvalidInput branch is unreachable; a registration that reaches the insert on
a table without that email answers 201, never the hash-failure 500. -/
theorem validated_password_hash_ok
    (cfg : AuthConfig) (saltRounds salt now : Nat) (s : UsersTable)
    (req : RegisterRequest)
    (hv : registerPasswordRule req.password = true) :
    hashPassword saltRounds salt req.password =
      .ok (bcryptHash saltRounds salt req.password) ∧
    (emailTaken s (toLowerCase req.email) = false →
      (register cfg saltRounds salt now s s req).1.status = 201) := by
  have h8 : 8 ≤ req.password.length := by
    simpa [registerPasswordRule] using hv
  have hlen : req.password.length ≠ 0 := by omega
  constructor
  · simp [hashPassword, hlen]
  · intro hfree
    simp [register, hfree, hashPassword, hlen, insertUserRow]

/-- C10 witness: a validated eleven-character password hashes successfully
and the registration answers 201. -/
theorem validated_password_hash_ok_witness :
    hashPassword 12 5 "longenough1" = .ok (bcryptHash 12 5 "longenough1") ∧
    (register ⟨"w10", none⟩ 12 5 3 ⟨[], 1⟩ ⟨[], 1⟩
      ⟨"new@z.io", "longenough1", none⟩).1.status = 201 :=
  ⟨(validated_password_hash_ok ⟨"w10", none⟩ 12 5 3 ⟨[], 1⟩
      ⟨"new@z.io", "longenough1", none⟩ (by decide)).1,
   (validated_password_hash_ok ⟨"w10", none⟩ 12 5 3 ⟨[], 1⟩
      ⟨"new@z.io", "longenough1", none⟩ (by decide)).2 (by decide)⟩

end KgfBackend
